import Mathlib

/-!
Verification of the ResoMaterialYou service (src/src/main.rs).

The service is a thin HTTP façade: `/getPalette` parses a base color and a
theme type, calls the external `material_colors` theme builder with seven
hard-coded accent colors, and concatenates the resulting colors as hex
strings; `/` returns a greeting.  The external color library and the HTTP
framework are outside the repository; where a definition models them it is
marked `Modelled from the spec:` and follows the specification's interface
description.  Everything else is a direct shallow embedding of `main.rs`.
-/

/-- Modelled from the spec: an RGB color with alpha, the external library's
`Argb` value (four 8-bit channels). -/
structure Argb where
  alpha : Fin 256
  red : Fin 256
  green : Fin 256
  blue : Fin 256
  deriving DecidableEq

/-- True when `c` is a hexadecimal digit character. -/
def isHexChar (c : Char) : Bool :=
  ('0' ≤ c && c ≤ '9') || ('a' ≤ c && c ≤ 'f') || ('A' ≤ c && c ≤ 'F')

/-- Numeric value of a hexadecimal digit character (0 for non-hex input,
which the callers rule out). -/
def hexVal (c : Char) : Nat :=
  if '0' ≤ c && c ≤ '9' then c.toNat - '0'.toNat
  else if 'a' ≤ c && c ≤ 'f' then c.toNat - 'a'.toNat + 10
  else if 'A' ≤ c && c ≤ 'F' then c.toNat - 'A'.toNat + 10
  else 0

/-- One byte from two hexadecimal digit characters (8-bit wide, as in the
library's channel type). -/
def hexByte (c1 c2 : Char) : Fin 256 :=
  ⟨(hexVal c1 * 16 + hexVal c2) % 256, Nat.mod_lt _ (by norm_num)⟩

/-- Characters of a color string with an optional leading format marker
removed. -/
def stripHash (s : String) : List Char :=
  match s.data with
  | '#' :: rest => rest
  | cs => cs

/-- Modelled from the spec: the external library's color parser.  The spec
says `base_color` must parse as a hexadecimal RGB triplet (optionally
8-hex-digit ARGB), with or without leading format markers; anything else
(for example a non-hex string, the empty string, or an odd-length hex
string) fails. -/
def Argb.from_str (s : String) : Except String Argb :=
  let cs := stripHash s
  if cs.all isHexChar then
    match cs with
    | [r1, r2, g1, g2, b1, b2] =>
        .ok ⟨255, hexByte r1 r2, hexByte g1 g2, hexByte b1 b2⟩
    | [a1, a2, r1, r2, g1, g2, b1, b2] =>
        .ok ⟨hexByte a1 a2, hexByte r1 r2, hexByte g1 g2, hexByte b1 b2⟩
    | _ => .error (String.append "invalid hex color string: " s)
  else .error (String.append "invalid hex color string: " s)

/-- Two lowercase hexadecimal digits of one byte. -/
def byteToHex (n : Nat) : String :=
  String.mk [Nat.digitChar (n / 16 % 16), Nat.digitChar (n % 16)]

/-- Modelled from the spec: the external library's conversion of a color to
its 6-hex-digit representation (no alpha, no `#` prefix, zero padded). -/
def Argb.to_hex (a : Argb) : String :=
  byteToHex a.red.val ++ byteToHex a.green.val ++ byteToHex a.blue.val

/-- The `CustomColor` input record of the external theme builder: an RGB
value, a display name, and whether the accent is harmonized (blended)
toward the source color. -/
structure CustomColor where
  value : Argb
  name : String
  blend : Bool
  deriving DecidableEq

/-- Modelled from the spec: the four role variants the provider computes
for a custom color in one mode. -/
structure CustomColorScheme where
  color : Argb
  color_container : Argb
  on_color : Argb
  on_color_container : Argb
  deriving DecidableEq

/-- Modelled from the spec: a custom color's computed light and dark
variants. -/
structure CustomColorGroup where
  name : String
  light : CustomColorScheme
  dark : CustomColorScheme
  deriving DecidableEq

/-- Modelled from the spec: the light and dark scheme sets, each a
named-role to color mapping iterated in the provider's native order. -/
structure Schemes where
  light : List (String × Argb)
  dark : List (String × Argb)
  deriving DecidableEq

/-- Modelled from the spec: the provider's output theme. -/
structure Theme where
  schemes : Schemes
  custom_colors : List CustomColorGroup
  deriving DecidableEq

/-- Modelled from the spec: the opaque Color Theme Provider, consumed only
through building a theme from a source color and a custom color list. -/
structure Provider where
  build : Argb → List CustomColor → Theme

/-- The `ThemeType` query enumeration from main.rs. -/
inductive ThemeType where
  | Dark
  | Light
  deriving DecidableEq

/-- Modelled from the spec: deserialization of the `theme_type` query
parameter, an exact case-sensitive match against the literals. -/
def ThemeType.from_str (s : String) : Except String ThemeType :=
  if s = "Dark" then .ok ThemeType.Dark
  else if s = "Light" then .ok ThemeType.Light
  else .error (String.append "unknown variant for theme_type: " s)

/-- The `PaletteQuery` record from main.rs, after deserialization. -/
structure PaletteQuery where
  base_color : String
  theme_type : ThemeType
  deriving DecidableEq

/-- The raw query parameters of a `/getPalette` request, before
deserialization. -/
structure RawQuery where
  base_color : String
  theme_type : String
  deriving DecidableEq

/-- The `AppError` wrapper from main.rs: any failure carries only its
underlying message. -/
structure AppError where
  msg : String
  deriving DecidableEq

/-- Log severities relevant to the service. -/
inductive Severity where
  | info
  | error
  deriving DecidableEq

/-- One emitted log line. -/
structure LogEntry where
  sev : Severity
  text : String
  deriving DecidableEq

/-- An HTTP response: status code and body. -/
structure HttpResponse where
  status : Nat
  body : String
  deriving DecidableEq

/-- The `IntoResponse` implementation of `AppError` from main.rs: log the
underlying error at error severity, then answer 500 with the message
appended to a fixed prefix text.  The log entries come first in the pair,
mirroring that the log is emitted before the response is produced. -/
def AppError.into_response (e : AppError) : List LogEntry × HttpResponse :=
  ([⟨Severity.error, String.append "Error occurred: " e.msg⟩],
    ⟨500, String.append "Something went wrong: " e.msg⟩)

/-- The `get_palette` handler body from main.rs: parse the seven fixed
accent colors, parse the caller's base color, build the theme, and
concatenate the selected scheme's hex strings followed by the custom
colors' four-role hex blocks. -/
def get_palette (P : Provider) (query : PaletteQuery) : Except AppError String :=
  match Argb.from_str "FF7676" with
  | .error e => .error ⟨e⟩
  | .ok v1 =>
  let red : CustomColor := { value := v1, name := "red", blend := true }
  match Argb.from_str "59EB5C" with
  | .error e => .error ⟨e⟩
  | .ok v2 =>
  let green : CustomColor := { value := v2, name := "green", blend := true }
  match Argb.from_str "0000FF" with
  | .error e => .error ⟨e⟩
  | .ok v3 =>
  let blue : CustomColor := { value := v3, name := "blue", blend := true }
  match Argb.from_str "F8F770" with
  | .error e => .error ⟨e⟩
  | .ok v4 =>
  let yellow : CustomColor := { value := v4, name := "yellow", blend := false }
  match Argb.from_str "BA64F2" with
  | .error e => .error ⟨e⟩
  | .ok v5 =>
  let purple : CustomColor := { value := v5, name := "purple", blend := true }
  match Argb.from_str "61D1FA" with
  | .error e => .error ⟨e⟩
  | .ok v6 =>
  let cyan : CustomColor := { value := v6, name := "cyan", blend := true }
  match Argb.from_str "E69E50" with
  | .error e => .error ⟨e⟩
  | .ok v7 =>
  let orange : CustomColor := { value := v7, name := "orange", blend := false }
  let custom_colors : List CustomColor := [red, green, blue, yellow, purple, cyan, orange]
  match Argb.from_str query.base_color with
  | .error e => .error ⟨e⟩
  | .ok source =>
  let theme := P.build source custom_colors
  let base_theme_string :=
    match query.theme_type with
    | ThemeType.Dark => String.join (theme.schemes.dark.map (fun x => x.2.to_hex))
    | ThemeType.Light => String.join (theme.schemes.light.map (fun x => x.2.to_hex))
  let custom_colors_string :=
    String.join (theme.custom_colors.map (fun x =>
      match query.theme_type with
      | ThemeType.Dark =>
          x.dark.color.to_hex ++ x.dark.color_container.to_hex ++
            x.dark.on_color.to_hex ++ x.dark.on_color_container.to_hex
      | ThemeType.Light =>
          x.light.color.to_hex ++ x.light.color_container.to_hex ++
            x.light.on_color.to_hex ++ x.light.on_color_container.to_hex))
  .ok (String.append base_theme_string custom_colors_string)

/-- The `hello_world` handler from main.rs. -/
def hello_world : String := "Hello, world!"

/-- Modelled from the spec: routing of `GET /` — the greeting handler takes
no input, so any query parameters supplied are ignored. -/
def handle_root (_params : List (String × String)) : HttpResponse :=
  ⟨200, hello_world⟩

/-- Modelled from the spec: the full `/getPalette` request path — query
deserialization (a failed `theme_type` literal fails the request), then the
handler, with any failure converted through `AppError.into_response`. -/
def handle_get_palette (P : Provider) (raw : RawQuery) : HttpResponse :=
  match ThemeType.from_str raw.theme_type with
  | .error m => (AppError.into_response ⟨m⟩).2
  | .ok t =>
    match get_palette P { base_color := raw.base_color, theme_type := t } with
    | .error e => (AppError.into_response e).2
    | .ok s => ⟨200, s⟩

/-- The evaluated seven fixed accent colors built at the start of
`get_palette` (lines 38-74 of main.rs), in construction order. -/
def fixed_custom_colors : List CustomColor :=
  [ { value := ⟨255, 255, 118, 118⟩, name := "red", blend := true },
    { value := ⟨255, 89, 235, 92⟩, name := "green", blend := true },
    { value := ⟨255, 0, 0, 255⟩, name := "blue", blend := true },
    { value := ⟨255, 248, 247, 112⟩, name := "yellow", blend := false },
    { value := ⟨255, 186, 100, 242⟩, name := "purple", blend := true },
    { value := ⟨255, 97, 209, 250⟩, name := "cyan", blend := true },
    { value := ⟨255, 230, 158, 80⟩, name := "orange", blend := false } ]

/-- The scheme set `get_palette` reads for a given theme type. -/
def selectedScheme (t : ThemeType) (th : Theme) : List (String × Argb) :=
  match t with
  | ThemeType.Dark => th.schemes.dark
  | ThemeType.Light => th.schemes.light

/-- The base part of the response body: the selected scheme's colors as
hex, concatenated. -/
def renderScheme (t : ThemeType) (th : Theme) : String :=
  String.join ((selectedScheme t th).map (fun x => x.2.to_hex))

/-- One custom color's four-role hex block for a given theme type. -/
def customBlock (t : ThemeType) (x : CustomColorGroup) : String :=
  match t with
  | ThemeType.Dark =>
      x.dark.color.to_hex ++ x.dark.color_container.to_hex ++
        x.dark.on_color.to_hex ++ x.dark.on_color_container.to_hex
  | ThemeType.Light =>
      x.light.color.to_hex ++ x.light.color_container.to_hex ++
        x.light.on_color.to_hex ++ x.light.on_color_container.to_hex

/-- The custom part of the response body: every custom color's block,
concatenated. -/
def renderCustoms (t : ThemeType) (th : Theme) : String :=
  String.join (th.custom_colors.map (customBlock t))

instance {ε α : Type} [DecidableEq ε] [DecidableEq α] : DecidableEq (Except ε α) := fun x y =>
  match x, y with
  | .ok a, .ok b =>
      if h : a = b then .isTrue (by rw [h]) else .isFalse (fun hh => h (Except.ok.inj hh))
  | .error a, .error b =>
      if h : a = b then .isTrue (by rw [h]) else .isFalse (fun hh => h (Except.error.inj hh))
  | .ok _, .error _ => .isFalse (fun hh => Except.noConfusion hh)
  | .error _, .ok _ => .isFalse (fun hh => Except.noConfusion hh)

theorem from_str_red : Argb.from_str "FF7676" = .ok ⟨255, 255, 118, 118⟩ := by decide

theorem from_str_green : Argb.from_str "59EB5C" = .ok ⟨255, 89, 235, 92⟩ := by decide

theorem from_str_blue : Argb.from_str "0000FF" = .ok ⟨255, 0, 0, 255⟩ := by decide

theorem from_str_yellow : Argb.from_str "F8F770" = .ok ⟨255, 248, 247, 112⟩ := by decide

theorem from_str_purple : Argb.from_str "BA64F2" = .ok ⟨255, 186, 100, 242⟩ := by decide

theorem from_str_cyan : Argb.from_str "61D1FA" = .ok ⟨255, 97, 209, 250⟩ := by decide

theorem from_str_orange : Argb.from_str "E69E50" = .ok ⟨255, 230, 158, 80⟩ := by decide

/-- Key unfolding: the seven constant parses always succeed, so
`get_palette` is the base color parse followed by rendering the theme
built from `fixed_custom_colors`. -/
theorem get_palette_eq (P : Provider) (query : PaletteQuery) :
    get_palette P query =
      match Argb.from_str query.base_color with
      | .error e => .error ⟨e⟩
      | .ok source =>
          .ok (String.append
            (renderScheme query.theme_type (P.build source fixed_custom_colors))
            (renderCustoms query.theme_type (P.build source fixed_custom_colors))) := by
  rw [get_palette, from_str_red, from_str_green, from_str_blue, from_str_yellow,
    from_str_purple, from_str_cyan, from_str_orange]
  cases h : Argb.from_str query.base_color with
  | error e => rfl
  | ok source => cases query.theme_type <;> rfl

/-- Order and name preservation of the provider: the spec says the theme
carries, per custom color of the input list, its computed variants; the
output groups correspond one to one, in order, to the input accents. -/
def Provider.keeps_customs (P : Provider) : Prop :=
  ∀ source ccs, ((P.build source ccs).custom_colors).map CustomColorGroup.name =
    ccs.map CustomColor.name

/-- A small concrete provider used to instantiate theorems: one scheme
role per mode, and every custom color variant equal to the input value. -/
def trivialProvider : Provider where
  build := fun source ccs =>
    { schemes := { light := [("primary", source)], dark := [("primary", source)] },
      custom_colors := ccs.map (fun c =>
        ⟨c.name, ⟨c.value, c.value, c.value, c.value⟩,
          ⟨c.value, c.value, c.value, c.value⟩⟩) }

theorem trivialProvider_keeps : trivialProvider.keeps_customs := by
  intro source ccs
  simp [trivialProvider, Provider.keeps_customs, List.map_map, Function.comp]

theorem string_data_append (a b : String) : (a ++ b).data = a.data ++ b.data := rfl

theorem string_length_data (s : String) : s.length = s.data.length := rfl

theorem string_length_append (a b : String) : (a ++ b).length = a.length + b.length := by
  rw [string_length_data, string_data_append, List.length_append,
    string_length_data a, string_length_data b]

theorem string_append_assoc (a b c : String) : a ++ b ++ c = a ++ (b ++ c) := by
  cases a with
  | mk as =>
    cases b with
    | mk bs =>
      cases c with
      | mk cs => exact congrArg String.mk (List.append_assoc as bs cs)

theorem string_join_data (l : List String) : (String.join l).data = (l.map String.data).flatten := by
  have key : ∀ (l : List String) (acc : String),
      (l.foldl (fun r s => r ++ s) acc).data = acc.data ++ (l.map String.data).flatten := by
    intro l
    induction l with
    | nil => intro acc; simp
    | cons hd tl ih =>
        intro acc
        simp [ih (acc ++ hd), string_data_append]
  simp only [String.join]
  rw [key l ""]
  rfl

theorem string_join_length (l : List String) :
    (String.join l).length = (l.map String.length).sum := by
  rw [string_length_data, string_join_data, List.length_flatten, List.map_map]
  rfl

theorem string_join_all (p : Char → Bool) (l : List String)
    (h : ∀ s ∈ l, s.data.all p = true) : (String.join l).data.all p = true := by
  rw [string_join_data, List.all_eq_true]
  intro c hc
  rw [List.mem_flatten] at hc
  obtain ⟨ds, hds, hcds⟩ := hc
  rw [List.mem_map] at hds
  obtain ⟨s, hs, rfl⟩ := hds
  exact List.all_eq_true.mp (h s hs) c hcds

theorem to_hex_length (a : Argb) : (Argb.to_hex a).length = 6 := by
  simp [Argb.to_hex, byteToHex, string_length_append, String.length]

theorem digitChar_hex (n : Nat) (h : n < 16) : isHexChar (Nat.digitChar n) = true := by
  interval_cases n <;> decide

theorem byteToHex_all_hex (n : Nat) : (byteToHex n).data.all isHexChar = true := by
  simp only [byteToHex, String.mk, List.all_cons, List.all_nil, Bool.and_true]
  rw [digitChar_hex _ (Nat.mod_lt _ (by norm_num)),
    digitChar_hex _ (Nat.mod_lt _ (by norm_num))]
  rfl

theorem to_hex_all_hex (a : Argb) : (Argb.to_hex a).data.all isHexChar = true := by
  simp [Argb.to_hex, string_data_append, List.all_append, byteToHex_all_hex]

theorem string_append_eq (a b : String) : String.append a b = a ++ b := rfl

theorem sum_map_const {α : Type} (l : List α) (k : Nat) :
    (l.map (fun _ => k)).sum = k * l.length := by
  induction l with
  | nil => simp
  | cons hd tl ih => simp [ih, List.length_cons, Nat.mul_succ]; ring

theorem renderScheme_length (t : ThemeType) (th : Theme) :
    (renderScheme t th).length = 6 * (selectedScheme t th).length := by
  rw [renderScheme, string_join_length, List.map_map]
  have hfun : (String.length ∘ fun x : String × Argb => x.2.to_hex) = fun _ => 6 :=
    funext fun x => to_hex_length x.2
  rw [hfun, sum_map_const]

theorem renderScheme_all_hex (t : ThemeType) (th : Theme) :
    (renderScheme t th).data.all isHexChar = true := by
  rw [renderScheme]
  apply string_join_all
  intro s hs
  rw [List.mem_map] at hs
  obtain ⟨x, _, rfl⟩ := hs
  exact to_hex_all_hex x.2

theorem customBlock_length (t : ThemeType) (x : CustomColorGroup) :
    (customBlock t x).length = 24 := by
  cases t <;> simp [customBlock, string_length_append, to_hex_length]

theorem customBlock_all_hex (t : ThemeType) (x : CustomColorGroup) :
    (customBlock t x).data.all isHexChar = true := by
  cases t <;> simp [customBlock, string_data_append, List.all_append, to_hex_all_hex]

theorem renderCustoms_length (t : ThemeType) (th : Theme) :
    (renderCustoms t th).length = 24 * th.custom_colors.length := by
  rw [renderCustoms, string_join_length, List.map_map]
  have hfun : (String.length ∘ customBlock t) = fun _ => 24 :=
    funext fun x => customBlock_length t x
  rw [hfun, sum_map_const]

theorem renderCustoms_all_hex (t : ThemeType) (th : Theme) :
    (renderCustoms t th).data.all isHexChar = true := by
  rw [renderCustoms]
  apply string_join_all
  intro s hs
  rw [List.mem_map] at hs
  obtain ⟨x, _, rfl⟩ := hs
  exact customBlock_all_hex t x

/-- Modelled from the spec: the scheme set (light or dark) matching the
theme type. -/
def spec_scheme_set (t : ThemeType) (th : Theme) : List (String × Argb) :=
  match t with
  | ThemeType.Dark => th.schemes.dark
  | ThemeType.Light => th.schemes.light

/-- Modelled from the spec: a custom color's variants for the selected
mode. -/
def spec_mode_variants (t : ThemeType) (g : CustomColorGroup) : CustomColorScheme :=
  match t with
  | ThemeType.Dark => g.dark
  | ThemeType.Light => g.light

/-- Modelled from the spec: output construction — iterate the selected
scheme's roles in the provider's native order, convert each to hex and
concatenate with no separator, then append per custom color the hex of its
four role variants in the fixed order color, color-container, on-color,
on-color-container, again with no separator. -/
def spec_render (t : ThemeType) (th : Theme) : String :=
  String.join ((spec_scheme_set t th).map (fun r => r.2.to_hex)) ++
    String.join (th.custom_colors.map (fun g =>
      String.join [(spec_mode_variants t g).color.to_hex,
        (spec_mode_variants t g).color_container.to_hex,
        (spec_mode_variants t g).on_color.to_hex,
        (spec_mode_variants t g).on_color_container.to_hex]))

theorem spec_render_eq (t : ThemeType) (th : Theme) :
    spec_render t th = String.append (renderScheme t th) (renderCustoms t th) := by
  cases t <;> rfl

/-- C1: for every request to /getPalette whose base_color is a valid hex
color string and whose theme_type is one of the literals Dark or Light,
the handler returns HTTP 200 with a body consisting solely of hexadecimal
characters, of length 6 times (the number of scheme roles plus 4 times the
number of custom colors, which is 7). -/
theorem getPalette_valid_request_hex_body (P : Provider) (raw : RawQuery)
    (t : ThemeType) (source : Argb)
    (hP : P.keeps_customs)
    (ht : ThemeType.from_str raw.theme_type = Except.ok t)
    (hc : Argb.from_str raw.base_color = Except.ok source) :
    (handle_get_palette P raw).status = 200 ∧
      ((handle_get_palette P raw).body).data.all isHexChar = true ∧
      ((handle_get_palette P raw).body).length =
        6 * ((selectedScheme t (P.build source fixed_custom_colors)).length + 4 * 7) := by
  have hcustoms : ((P.build source fixed_custom_colors).custom_colors).length = 7 := by
    have hnames := congrArg List.length (hP source fixed_custom_colors)
    simpa using hnames
  have hbody : handle_get_palette P raw =
      ⟨200, String.append (renderScheme t (P.build source fixed_custom_colors))
        (renderCustoms t (P.build source fixed_custom_colors))⟩ := by
    simp only [handle_get_palette, ht, get_palette_eq, hc]
  rw [hbody]
  refine ⟨rfl, ?_, ?_⟩
  · rw [string_append_eq, string_data_append, List.all_append,
      renderScheme_all_hex, renderCustoms_all_hex]
    rfl
  · rw [string_append_eq, string_length_append, renderScheme_length,
      renderCustoms_length, hcustoms]
    omega

/-- Witness for C1 at base_color FF0000 and theme_type Light with a
concrete provider. -/
theorem getPalette_valid_request_hex_body_witness :
    trivialProvider.keeps_customs ∧
      ThemeType.from_str "Light" = Except.ok ThemeType.Light ∧
      Argb.from_str "FF0000" = Except.ok ⟨255, 255, 0, 0⟩ ∧
      ((handle_get_palette trivialProvider ⟨"FF0000", "Light"⟩).status = 200 ∧
        ((handle_get_palette trivialProvider ⟨"FF0000", "Light"⟩).body).data.all isHexChar = true ∧
        ((handle_get_palette trivialProvider ⟨"FF0000", "Light"⟩).body).length =
          6 * ((selectedScheme ThemeType.Light
            (trivialProvider.build ⟨255, 255, 0, 0⟩ fixed_custom_colors)).length + 4 * 7)) :=
  ⟨trivialProvider_keeps, by decide, by decide,
    getPalette_valid_request_hex_body trivialProvider ⟨"FF0000", "Light"⟩ ThemeType.Light
      ⟨255, 255, 0, 0⟩ trivialProvider_keeps (by decide) (by decide)⟩

/-- C2: every successful /getPalette response body is exactly the spec's
output construction — the scheme matching the theme type rendered in
native order, followed per custom color by the four role variants in the
fixed order color, color-container, on-color, on-color-container, all with
no separator. -/
theorem getPalette_body_construction (P : Provider) (raw : RawQuery)
    (t : ThemeType) (source : Argb)
    (ht : ThemeType.from_str raw.theme_type = Except.ok t)
    (hc : Argb.from_str raw.base_color = Except.ok source) :
    handle_get_palette P raw =
      ⟨200, spec_render t (P.build source fixed_custom_colors)⟩ := by
  simp only [handle_get_palette, ht, get_palette_eq, hc, spec_render_eq]

/-- Witness for C2 at base_color 00FF00 and theme_type Dark with a
concrete provider. -/
theorem getPalette_body_construction_witness :
    ThemeType.from_str "Dark" = Except.ok ThemeType.Dark ∧
      Argb.from_str "00FF00" = Except.ok ⟨255, 0, 255, 0⟩ ∧
      handle_get_palette trivialProvider ⟨"00FF00", "Dark"⟩ =
        ⟨200, spec_render ThemeType.Dark
          (trivialProvider.build ⟨255, 0, 255, 0⟩ fixed_custom_colors)⟩ :=
  ⟨by decide, by decide,
    getPalette_body_construction trivialProvider ⟨"00FF00", "Dark"⟩ ThemeType.Dark
      ⟨255, 0, 255, 0⟩ (by decide) (by decide)⟩

/-- C3: for every request to /getPalette whose base_color does not parse
as a hex color while theme_type is a valid literal, the response has
status 500 and its body starts with the text Something went wrong
followed by a colon. -/
theorem getPalette_invalid_base_color_500 (P : Provider) (raw : RawQuery)
    (t : ThemeType) (m : String)
    (ht : ThemeType.from_str raw.theme_type = Except.ok t)
    (hc : Argb.from_str raw.base_color = Except.error m) :
    (handle_get_palette P raw).status = 500 ∧
      ∃ rest, (handle_get_palette P raw).body = String.append "Something went wrong:" rest := by
  have hresp : handle_get_palette P raw =
      ⟨500, String.append "Something went wrong: " m⟩ := by
    simp only [handle_get_palette, ht, get_palette_eq, hc, AppError.into_response]
  rw [hresp]
  refine ⟨rfl, String.append " " m, ?_⟩
  show "Something went wrong: " ++ m = "Something went wrong:" ++ (" " ++ m)
  rw [← string_append_assoc]
  rfl

/-- Witness for C3 at the non-color input not-a-color. -/
theorem getPalette_invalid_base_color_500_witness :
    ThemeType.from_str "Light" = Except.ok ThemeType.Light ∧
      Argb.from_str "not-a-color" = Except.error "invalid hex color string: not-a-color" ∧
      ((handle_get_palette trivialProvider ⟨"not-a-color", "Light"⟩).status = 500 ∧
        ∃ rest, (handle_get_palette trivialProvider ⟨"not-a-color", "Light"⟩).body =
          String.append "Something went wrong:" rest) :=
  ⟨by decide, by decide,
    getPalette_invalid_base_color_500 trivialProvider ⟨"not-a-color", "Light"⟩
      ThemeType.Light "invalid hex color string: not-a-color" (by decide) (by decide)⟩

/-- C4: for every request to /getPalette whose theme_type is neither the
exact literal Dark nor the exact literal Light, the response has status
500. -/
theorem getPalette_invalid_theme_type_500 (P : Provider) (raw : RawQuery) (m : String)
    (ht : ThemeType.from_str raw.theme_type = Except.error m) :
    (handle_get_palette P raw).status = 500 := by
  simp only [handle_get_palette, ht, AppError.into_response]

/-- Witness for C4 at the lowercase literal dark. -/
theorem getPalette_invalid_theme_type_500_witness :
    ThemeType.from_str "dark" = Except.error "unknown variant for theme_type: dark" ∧
      (handle_get_palette trivialProvider ⟨"FF0000", "dark"⟩).status = 500 :=
  ⟨by decide,
    getPalette_invalid_theme_type_500 trivialProvider ⟨"FF0000", "dark"⟩
      "unknown variant for theme_type: dark" (by decide)⟩

/-- C5: every failure is wrapped in the single AppError type — the
/getPalette pipeline either answers 200 or answers exactly through
AppError.into_response — and converting an AppError to a response always
logs the underlying message at error severity and yields status 500 with
body Something went wrong followed by the message. -/
theorem appError_uniform_mapping :
    (∀ e : AppError, (e.into_response).2.status = 500 ∧
        (e.into_response).2.body = String.append "Something went wrong: " e.msg ∧
        (e.into_response).1 = [⟨Severity.error, String.append "Error occurred: " e.msg⟩]) ∧
    (∀ (P : Provider) (raw : RawQuery), (handle_get_palette P raw).status = 200 ∨
        ∃ e : AppError, handle_get_palette P raw = (e.into_response).2) := by
  constructor
  · intro e
    exact ⟨rfl, rfl, rfl⟩
  · intro P raw
    cases hth : ThemeType.from_str raw.theme_type with
    | error m =>
        right
        exact ⟨⟨m⟩, by simp only [handle_get_palette, hth]⟩
    | ok t =>
        cases hgp : get_palette P ⟨raw.base_color, t⟩ with
        | error e =>
            right
            exact ⟨e, by simp only [handle_get_palette, hth, hgp]⟩
        | ok s =>
            left
            simp only [handle_get_palette, hth, hgp]

/-- C6: the /getPalette pipeline is deterministic — two requests with
identical base_color and theme_type values produce byte-identical
response bodies. -/
theorem getPalette_deterministic (P : Provider) (r1 r2 : RawQuery)
    (h1 : r1.base_color = r2.base_color) (h2 : r1.theme_type = r2.theme_type) :
    (handle_get_palette P r1).body = (handle_get_palette P r2).body := by
  cases r1 with
  | mk bc1 tt1 =>
    cases r2 with
    | mk bc2 tt2 =>
      cases h1
      cases h2
      rfl

/-- Witness for C6 at two identical concrete requests. -/
theorem getPalette_deterministic_witness :
    (RawQuery.mk "123456" "Dark").base_color = (RawQuery.mk "123456" "Dark").base_color ∧
      (RawQuery.mk "123456" "Dark").theme_type = (RawQuery.mk "123456" "Dark").theme_type ∧
      (handle_get_palette trivialProvider ⟨"123456", "Dark"⟩).body =
        (handle_get_palette trivialProvider ⟨"123456", "Dark"⟩).body :=
  ⟨rfl, rfl, getPalette_deterministic trivialProvider ⟨"123456", "Dark"⟩
    ⟨"123456", "Dark"⟩ rfl rfl⟩

/-- C7: the custom-color list passed to the theme builder is the fixed
hard-coded list of exactly seven named accents red, green, blue, yellow,
purple, cyan, orange in that order, identical for every request and not
influenced by any request input, and (for a name-preserving provider) the
per-custom-color hex blocks appear in the response body in that same
order. -/
theorem getPalette_fixed_custom_color_list (P : Provider) (raw : RawQuery)
    (t : ThemeType) (source : Argb)
    (hP : P.keeps_customs)
    (ht : ThemeType.from_str raw.theme_type = Except.ok t)
    (hc : Argb.from_str raw.base_color = Except.ok source) :
    fixed_custom_colors.map CustomColor.name =
        ["red", "green", "blue", "yellow", "purple", "cyan", "orange"] ∧
      (∀ q : PaletteQuery, get_palette P q =
        match Argb.from_str q.base_color with
        | Except.error e => Except.error ⟨e⟩
        | Except.ok s =>
            Except.ok (String.append
              (renderScheme q.theme_type (P.build s fixed_custom_colors))
              (renderCustoms q.theme_type (P.build s fixed_custom_colors)))) ∧
      (handle_get_palette P raw).body =
        String.append (renderScheme t (P.build source fixed_custom_colors))
          (String.join (((P.build source fixed_custom_colors).custom_colors).map
            (customBlock t))) ∧
      ((P.build source fixed_custom_colors).custom_colors).map CustomColorGroup.name =
        ["red", "green", "blue", "yellow", "purple", "cyan", "orange"] := by
  refine ⟨rfl, get_palette_eq P, ?_, ?_⟩
  · simp only [handle_get_palette, ht, get_palette_eq, hc, renderCustoms]
  · rw [hP source fixed_custom_colors]
    rfl

/-- Witness for C7 at base_color ABCDEF and theme_type Dark with a
concrete provider. -/
theorem getPalette_fixed_custom_color_list_witness :
    trivialProvider.keeps_customs ∧
      ThemeType.from_str "Dark" = Except.ok ThemeType.Dark ∧
      Argb.from_str "ABCDEF" = Except.ok ⟨255, 171, 205, 239⟩ ∧
      (fixed_custom_colors.map CustomColor.name =
          ["red", "green", "blue", "yellow", "purple", "cyan", "orange"] ∧
        (∀ q : PaletteQuery, get_palette trivialProvider q =
          match Argb.from_str q.base_color with
          | Except.error e => Except.error ⟨e⟩
          | Except.ok s =>
              Except.ok (String.append
                (renderScheme q.theme_type (trivialProvider.build s fixed_custom_colors))
                (renderCustoms q.theme_type (trivialProvider.build s fixed_custom_colors)))) ∧
        (handle_get_palette trivialProvider ⟨"ABCDEF", "Dark"⟩).body =
          String.append (renderScheme ThemeType.Dark
            (trivialProvider.build ⟨255, 171, 205, 239⟩ fixed_custom_colors))
            (String.join (((trivialProvider.build ⟨255, 171, 205, 239⟩
              fixed_custom_colors).custom_colors).map (customBlock ThemeType.Dark))) ∧
        ((trivialProvider.build ⟨255, 171, 205, 239⟩
            fixed_custom_colors).custom_colors).map CustomColorGroup.name =
          ["red", "green", "blue", "yellow", "purple", "cyan", "orange"]) :=
  ⟨trivialProvider_keeps, by decide, by decide,
    getPalette_fixed_custom_color_list trivialProvider ⟨"ABCDEF", "Dark"⟩ ThemeType.Dark
      ⟨255, 171, 205, 239⟩ trivialProvider_keeps (by decide) (by decide)⟩

/-- C8: the GET / handler always returns HTTP 200 with body exactly
Hello, world!, for every request regardless of any query parameters, with
no failure mode. -/
theorem root_hello_world :
    (∀ params : List (String × String), handle_root params = ⟨200, "Hello, world!"⟩) ∧
      hello_world = "Hello, world!" :=
  ⟨fun _ => rfl, rfl⟩

/-- C9: parsing each of the seven hard-coded custom-color constants
always succeeds, so a /getPalette failure can only originate from the
caller-supplied base_color: whenever get_palette fails, the error is
exactly the base color parse error. -/
theorem getPalette_error_only_from_base_color (P : Provider) (q : PaletteQuery)
    (e : AppError) (h : get_palette P q = Except.error e) :
    Argb.from_str q.base_color = Except.error e.msg ∧
      (Argb.from_str "FF7676").isOk = true ∧ (Argb.from_str "59EB5C").isOk = true ∧
      (Argb.from_str "0000FF").isOk = true ∧ (Argb.from_str "F8F770").isOk = true ∧
      (Argb.from_str "BA64F2").isOk = true ∧ (Argb.from_str "61D1FA").isOk = true ∧
      (Argb.from_str "E69E50").isOk = true := by
  refine ⟨?_, by decide, by decide, by decide, by decide, by decide, by decide, by decide⟩
  rw [get_palette_eq] at h
  cases hc : Argb.from_str q.base_color with
  | error m =>
      rw [hc] at h
      simp only [] at h
      have hm : (⟨m⟩ : AppError) = e := Except.error.inj h
      rw [← hm]
  | ok s =>
      rw [hc] at h
      simp at h

/-- Witness for C9 at the failing base color zzzzzz. -/
theorem getPalette_error_only_from_base_color_witness :
    get_palette trivialProvider ⟨"zzzzzz", ThemeType.Light⟩ =
        Except.error ⟨"invalid hex color string: zzzzzz"⟩ ∧
      Argb.from_str "zzzzzz" = Except.error "invalid hex color string: zzzzzz" :=
  ⟨by decide,
    (getPalette_error_only_from_base_color trivialProvider ⟨"zzzzzz", ThemeType.Light⟩
      ⟨"invalid hex color string: zzzzzz"⟩ (by decide)).1⟩

/-- C10: among the seven fixed accents built by get_palette on every
request, yellow and orange have blend false while red, green, blue,
purple and cyan have blend true. -/
theorem fixed_custom_colors_blend_flags :
    fixed_custom_colors.map (fun c => (c.name, c.blend)) =
        [("red", true), ("green", true), ("blue", true), ("yellow", false),
          ("purple", true), ("cyan", true), ("orange", false)] ∧
      ∀ (P : Provider) (q : PaletteQuery), get_palette P q =
        match Argb.from_str q.base_color with
        | Except.error e => Except.error ⟨e⟩
        | Except.ok s =>
            Except.ok (String.append
              (renderScheme q.theme_type (P.build s fixed_custom_colors))
              (renderCustoms q.theme_type (P.build s fixed_custom_colors))) :=
  ⟨rfl, fun P => get_palette_eq P⟩
